import Mathlib

/-!
Shallow embedding of `src/arduino/Write_influxdb_template.ino` from the
Bonn-LHCb/cooling_setup repository.

The sketch is a linear setup/loop program.  External collaborators (the
SHT31 sensor driver, the WiFi association helper and the InfluxDB client)
are modelled as abstract per-iteration interfaces: the sketch only observes
their return values, so an iteration environment records those values and
the loop body is a pure function from the environment and the current
global state to the next global state together with the list of observable
events (serial prints, the write attempt, delays).
-/

namespace CoolingSetup

/-- Typed value of one field of an InfluxDB point: the sketch adds
`float`/`double` fields (modelled over `ℝ`) and integer fields. -/
inductive FieldValue where
  | real (x : ℝ)
  | int (n : ℤ)

/-- The InfluxDB `Point` object: a measurement name, a list of tags and a
list of fields, in insertion order. -/
structure Point where
  name : String
  tags : List (String × String)
  fields : List (String × FieldValue)

/-- `Point::addTag` appends one tag. -/
def Point.addTag (p : Point) (k v : String) : Point :=
  { p with tags := p.tags ++ [(k, v)] }

/-- `Point::addField` appends one field. -/
def Point.addField (p : Point) (k : String) (v : FieldValue) : Point :=
  { p with fields := p.fields ++ [(k, v)] }

/-- `Point::clearFields` removes all fields, keeping name and tags. -/
def Point.clearFields (p : Point) : Point :=
  { p with fields := [] }

/-- Outputs of the external SHT31 sensor driver during one loop iteration:
the values that `getTemperature()`, `getHumidity()`, `readStatus()` and
`getError()` return after this iteration's `read()` call.  When the read
failed, `temp` and `hum` are whatever stale values the driver still holds. -/
structure SensorIface where
  temp : ℝ
  hum : ℝ
  status : ℤ
  err : ℤ

/-- Observable events emitted by one phase of the sketch: a serial log
line, an attempt to write a point through the InfluxDB client, or a call
to `delay` with a number of milliseconds. -/
inductive Event where
  | serial (msg : String)
  | writeAttempt (p : Point)
  | delay (ms : ℕ)

/-- `true` exactly on write-attempt events. -/
def Event.isWrite : Event → Bool
  | .writeAttempt _ => true
  | _ => false

/-- Environment of one steady-state loop iteration: the sensor driver's
outputs, the result of the mid-cycle `wifiMulti.run()` check, the result
of `client.writePoint`, the client's `getLastErrorMessage()` and its
`pointToLineProtocol` rendering function. -/
structure IterEnv where
  sht : SensorIface
  wifiConnected : Bool
  writeOk : Bool
  lastErrorMessage : String
  lineProtocol : Point → String

/-- The sketch's mutable globals that the loop touches: the `sensor`
point and the `error` integer. -/
structure LoopState where
  sensor : Point
  error : ℤ

/-- Magnus-form constant `a` from the loop body (declared, unused). -/
def aConst : ℝ := 6.1121

/-- Magnus-form constant `b` from the loop body. -/
def bConst : ℝ := 18.678

/-- Magnus-form constant `c` from the loop body. -/
def cConst : ℝ := 257.14

/-- Magnus-form constant `d` from the loop body. -/
def dConst : ℝ := 234.5

/-- The loop body's `gamma = log(rh/100*exp((b-t/d)*(t/(c+t))))`. -/
noncomputable def gamma (t rh : ℝ) : ℝ :=
  Real.log (rh / 100 * Real.exp ((bConst - t / dConst) * (t / (cConst + t))))

/-- The loop body's dew-point value `(c*gamma)/(b-gamma)`. -/
noncomputable def dewpoint (t rh : ℝ) : ℝ :=
  (cConst * gamma t rh) / (bConst - gamma t rh)

/-- The field-building part of `loop()`: starting from the previous
iteration's point, `clearFields`, then conditionally add `temp`/`hum`
when the captured error code is zero, then always add `stat`, `error`
and the `dewpoint` field. -/
noncomputable def loopPoint (prev : Point) (sht : SensorIface) : Point :=
  let p := prev.clearFields
  let p := if sht.err = 0 then
      (p.addField "temp" (.real sht.temp)).addField "hum" (.real sht.hum)
    else p
  let p := p.addField "stat" (.int sht.status)
  let p := p.addField "error" (.int sht.err)
  p.addField "dewpoint" (.real (dewpoint sht.temp sht.hum))

/-- One steady-state iteration of `loop()`: build the point, log the
line-protocol preview, re-check WiFi (warning only), attempt the write
(logging the last error message on failure), log and perform the fixed
1000 ms end-of-cycle delay.  Returns the new globals and the events in
program order. -/
noncomputable def loopIter (env : IterEnv) (s : LoopState) : LoopState × List Event :=
  let p := loopPoint s.sensor env.sht
  ({ sensor := p, error := env.sht.err },
    [Event.serial ("Writing: " ++ env.lineProtocol p)]
      ++ (if env.wifiConnected then [] else [Event.serial "Wifi connection lost"])
      ++ [Event.writeAttempt p]
      ++ (if env.writeOk then []
          else [Event.serial ("InfluxDB write failed: " ++ env.lastErrorMessage)])
      ++ [Event.serial "Wait 1s", Event.delay 1000])

/-- The globals after `n` loop iterations under the environment stream
`env`, starting from state `s0`. -/
noncomputable def runStates (env : ℕ → IterEnv) (s0 : LoopState) : ℕ → LoopState
  | 0 => s0
  | n + 1 => (loopIter (env n) (runStates env s0 n)).1

/-- The point passed to `client.writePoint` during iteration `n`. -/
noncomputable def publishedAt (env : ℕ → IterEnv) (s0 : LoopState) (n : ℕ) : Point :=
  loopPoint (runStates env s0 n).sensor (env n).sht

/-- The `sensor` global after `setup()`: constructed as
`Point("temp_sensor")` and given the two tags `IP` and `MAC` from the
WiFi interface. -/
def setupPoint (ip mac : String) : Point :=
  ((Point.mk "temp_sensor" [] []).addTag "IP" ip).addTag "MAC" mac

/-- The sketch's globals when `loop()` first runs: the tagged point and
the zero-initialised `error` global. -/
def setupState (ip mac : String) : LoopState :=
  { sensor := setupPoint ip mac, error := 0 }

/-- The serial/delay trace of `n` failed association attempts in the
startup wait loop: each failed check prints `.` and delays 500 ms. -/
def delayTrace : ℕ → List Event
  | 0 => []
  | n + 1 => [Event.serial ".", Event.delay 500] ++ delayTrace n

/-- Fuel-indexed model of setup's `while (wifiMulti.run() != WL_CONNECTED)
{ Serial.print("."); delay(500); }` loop: `conn k` is whether the `k`-th
association check reports connected.  Returns `some (n, evs)` when the
loop exits after `n` failed checks within the given fuel, together with
the events it emitted, and `none` when the fuel is exhausted while the
check keeps failing. -/
def wifiWait (conn : ℕ → Bool) : ℕ → Option (ℕ × List Event)
  | 0 => none
  | fuel + 1 =>
    if conn 0 then some (0, [])
    else (wifiWait (fun k => conn (k + 1)) fuel).map
      (fun r => (r.1 + 1, [Event.serial ".", Event.delay 500] ++ r.2))

/-- Modelled from the spec: the dew-point formula exactly as the spec
states it — `gamma = ln((rh/100) * exp((b − t/d) * (t / (c + t))))` with
`b = 18.678`, `c = 257.14`, `d = 234.5`. -/
noncomputable def gammaSpec (t rh : ℝ) : ℝ :=
  Real.log ((rh / 100) * Real.exp ((18.678 - t / 234.5) * (t / (257.14 + t))))

/-- Modelled from the spec: `dewpoint = (c * gamma) / (b − gamma)`. -/
noncomputable def dewpointSpec (t rh : ℝ) : ℝ :=
  (257.14 * gammaSpec t rh) / (18.678 - gammaSpec t rh)

/-- A concrete sensor output with a zero error code, for witnesses. -/
def shtOk : SensorIface := { temp := 21, hum := 40, status := 3, err := 0 }

/-- A concrete sensor output with a nonzero error code, for witnesses. -/
def shtBad : SensorIface := { temp := 21, hum := 40, status := 3, err := 4 }

/-- A concrete iteration environment with a failing write, for witnesses. -/
def envFail : IterEnv :=
  { sht := shtOk, wifiConnected := true, writeOk := false,
    lastErrorMessage := "timeout", lineProtocol := fun _ => "line" }

/-- A concrete starting state for witnesses. -/
def stateW : LoopState := setupState "10.0.0.2" "aa:bb"

/-- A concrete association-check stream that first succeeds at attempt 2,
for witnesses. -/
def connW : ℕ → Bool := fun k => decide (k = 2)

/-- The spec's worked dew-point example input `t = 20.0, rh = 50.0`. -/
def sht2050 : SensorIface := { temp := 20, hum := 50, status := 0, err := 0 }

/-- A degenerate sensor output (`rh ≤ 0` and `c + t = 0`), for witnesses. -/
def shtDeg : SensorIface := { temp := -257.14, hum := 0, status := 0, err := 0 }

/-- Normal form of the fields of the point built by one loop iteration:
the conditional `temp`/`hum` pair followed by `stat`, `error` and
`dewpoint`, independently of the previous point's fields. -/
theorem loopPoint_fields (prev : Point) (sht : SensorIface) :
    (loopPoint prev sht).fields =
      (if sht.err = 0 then
        [("temp", FieldValue.real sht.temp), ("hum", FieldValue.real sht.hum)]
      else [])
      ++ [("stat", FieldValue.int sht.status), ("error", FieldValue.int sht.err),
          ("dewpoint", FieldValue.real (dewpoint sht.temp sht.hum))] := by
  by_cases h : sht.err = 0 <;>
    simp [loopPoint, Point.addField, Point.clearFields, h]

/-- C1: in every loop iteration the `temp` and `hum` fields are added to
the point exactly when the captured sensor error code is zero; when it is
nonzero, the published point carries no `temp` and no `hum` field. -/
theorem temp_hum_iff_no_error (prev : Point) (sht : SensorIface) :
    (sht.err = 0 →
      ("temp", FieldValue.real sht.temp) ∈ (loopPoint prev sht).fields ∧
      ("hum", FieldValue.real sht.hum) ∈ (loopPoint prev sht).fields) ∧
    (sht.err ≠ 0 →
      "temp" ∉ (loopPoint prev sht).fields.map Prod.fst ∧
      "hum" ∉ (loopPoint prev sht).fields.map Prod.fst) := by
  constructor
  · intro h
    simp [loopPoint_fields, h]
  · intro h
    simp [loopPoint_fields, h]

/-- C1 witness: instantiated at a zero-error and a nonzero-error sensor
read. -/
theorem temp_hum_iff_no_error_witness :
    (("temp", FieldValue.real shtOk.temp) ∈ (loopPoint (setupPoint "i" "m") shtOk).fields ∧
      ("hum", FieldValue.real shtOk.hum) ∈ (loopPoint (setupPoint "i" "m") shtOk).fields) ∧
    ("temp" ∉ (loopPoint (setupPoint "i" "m") shtBad).fields.map Prod.fst ∧
      "hum" ∉ (loopPoint (setupPoint "i" "m") shtBad).fields.map Prod.fst) :=
  ⟨(temp_hum_iff_no_error (setupPoint "i" "m") shtOk).1 rfl,
   (temp_hum_iff_no_error (setupPoint "i" "m") shtBad).2 (by decide)⟩

/-- C3: the `dewpoint` field, computed from the values the sensor driver
currently returns, is added to the point in every iteration, with no
guard on the error code. -/
theorem dewpoint_added_unconditionally (prev : Point) (sht : SensorIface) :
    ("dewpoint", FieldValue.real (dewpoint sht.temp sht.hum))
      ∈ (loopPoint prev sht).fields := by
  by_cases h : sht.err = 0 <;> simp [loopPoint_fields, h]

/-- C4: the raw sensor status code and the sensor error code are recorded
as fields in every iteration, regardless of the error state. -/
theorem stat_error_always_recorded (prev : Point) (sht : SensorIface) :
    ("stat", FieldValue.int sht.status) ∈ (loopPoint prev sht).fields ∧
    ("error", FieldValue.int sht.err) ∈ (loopPoint prev sht).fields := by
  by_cases h : sht.err = 0 <;> simp [loopPoint_fields, h]

/-- C5: fields are cleared at the start of every iteration, so the
published point's fields are independent of the previous iteration's
fields: clearing empties the field list and the built point coincides
with the one built from a field-free point. -/
theorem fields_cleared_each_cycle (prev : Point) (sht : SensorIface) :
    (Point.clearFields prev).fields = [] ∧
    loopPoint prev sht = loopPoint { prev with fields := [] } sht := by
  exact ⟨rfl, rfl⟩

/-- Building the iteration's point never touches the tags. -/
theorem loopPoint_tags (prev : Point) (sht : SensorIface) :
    (loopPoint prev sht).tags = prev.tags := by
  by_cases h : sht.err = 0 <;>
    simp [loopPoint, Point.addField, Point.clearFields, h]

/-- Iterating the loop never changes the tags of the `sensor` global. -/
theorem runStates_tags (env : ℕ → IterEnv) (s0 : LoopState) (n : ℕ) :
    (runStates env s0 n).sensor.tags = s0.sensor.tags := by
  induction n with
  | zero => rfl
  | succ n ih =>
    simpa [runStates, loopIter, loopPoint_tags] using ih

/-- C6: the `IP` and `MAC` tags are set once by `setup`, field clearing
leaves them unchanged, and every state reached by the loop and every
published point carries exactly these two tags. -/
theorem tags_set_once_and_persist (ip mac : String) (env : ℕ → IterEnv) (n : ℕ) :
    (setupState ip mac).sensor.tags = [("IP", ip), ("MAC", mac)] ∧
    (Point.clearFields (runStates env (setupState ip mac) n).sensor).tags
      = (runStates env (setupState ip mac) n).sensor.tags ∧
    (runStates env (setupState ip mac) n).sensor.tags = [("IP", ip), ("MAC", mac)] ∧
    (publishedAt env (setupState ip mac) n).tags = [("IP", ip), ("MAC", mac)] := by
  have hrun : (runStates env (setupState ip mac) n).sensor.tags
      = [("IP", ip), ("MAC", mac)] := by
    rw [runStates_tags]
    simp [setupState, setupPoint, Point.addTag]
  exact ⟨by simp [setupState, setupPoint, Point.addTag], rfl, hrun,
    by rw [publishedAt, loopPoint_tags, hrun]⟩

/-- C7: when the write fails, the failure is logged with the client's last
error message; the resulting global state is the same as on success (the
sample is dropped, nothing is queued), exactly one write is attempted (no
retry), and on failure as on success the iteration ends with the fixed
1000 ms delay. -/
theorem write_failure_logged_and_dropped (env : IterEnv) (s : LoopState) :
    (env.writeOk = false →
      Event.serial ("InfluxDB write failed: " ++ env.lastErrorMessage)
        ∈ (loopIter env s).2) ∧
    (loopIter env s).1 = (loopIter { env with writeOk := true } s).1 ∧
    (loopIter env s).2.countP Event.isWrite = 1 ∧
    (loopIter env s).2.getLast? = some (Event.delay 1000) ∧
    (loopIter { env with writeOk := true } s).2.getLast? = some (Event.delay 1000) := by
  cases hw : env.wifiConnected <;> cases ho : env.writeOk <;>
    simp [loopIter, hw, ho, Event.isWrite, List.countP_cons, List.countP_append]

/-- C7 witness: instantiated at a concrete environment whose write
fails. -/
theorem write_failure_witness :
    Event.serial ("InfluxDB write failed: " ++ envFail.lastErrorMessage)
      ∈ (loopIter envFail stateW).2 ∧
    (loopIter envFail stateW).1 = (loopIter { envFail with writeOk := true } stateW).1 ∧
    (loopIter envFail stateW).2.getLast? = some (Event.delay 1000) :=
  ⟨(write_failure_logged_and_dropped envFail stateW).1 rfl,
   (write_failure_logged_and_dropped envFail stateW).2.1,
   (write_failure_logged_and_dropped envFail stateW).2.2.2.1⟩

/-- C9: losing WiFi at the mid-cycle re-check only inserts the warning
line into the event trace: the resulting state is unchanged, the same
point is still written in the same cycle after the warning, and the
iteration still runs to its final fixed delay. -/
theorem wifi_loss_warns_only (env : IterEnv) (s : LoopState) :
    ∃ pre post,
      (loopIter { env with wifiConnected := true } s).2 = pre ++ post ∧
      (loopIter { env with wifiConnected := false } s).2
        = pre ++ Event.serial "Wifi connection lost" :: post ∧
      (loopIter { env with wifiConnected := false } s).1
        = (loopIter { env with wifiConnected := true } s).1 ∧
      Event.writeAttempt (loopPoint s.sensor env.sht) ∈ post ∧
      Event.serial "Wait 1s" ∈ post ∧
      post.getLast? = some (Event.delay 1000) := by
  refine ⟨[Event.serial ("Writing: " ++ env.lineProtocol (loopPoint s.sensor env.sht))],
    Event.writeAttempt (loopPoint s.sensor env.sht)
      :: ((if env.writeOk then []
          else [Event.serial ("InfluxDB write failed: " ++ env.lastErrorMessage)])
        ++ [Event.serial "Wait 1s", Event.delay 1000]), ?_, ?_, ?_, ?_, ?_, ?_⟩ <;>
    cases ho : env.writeOk <;> simp [loopIter, ho]

/-- If the wait loop exits after `n` checks, the `n`-th check reported
connected, all earlier checks failed, and the loop emitted one dot and
one 500 ms delay per failed check. -/
theorem wifiWait_exit (fuel : ℕ) : ∀ (conn : ℕ → Bool) (n : ℕ) (evs : List Event),
    wifiWait conn fuel = some (n, evs) →
    conn n = true ∧ (∀ m < n, conn m = false) ∧ evs = delayTrace n := by
  induction fuel with
  | zero => intro conn n evs h; simp [wifiWait] at h
  | succ fuel ih =>
    intro conn n evs h
    rw [wifiWait] at h
    by_cases h0 : conn 0 = true
    · rw [if_pos h0] at h
      obtain ⟨rfl, rfl⟩ : n = 0 ∧ evs = [] := by
        simpa [eq_comm] using h
      exact ⟨h0, by omega, rfl⟩
    · rw [if_neg h0] at h
      obtain ⟨⟨n', evs'⟩, hrec, heq⟩ := Option.map_eq_some'.mp h
      obtain ⟨hconn, hmin, hevs⟩ := ih (fun k => conn (k + 1)) n' evs' hrec
      obtain ⟨rfl, rfl⟩ : n = n' + 1 ∧ evs = [Event.serial ".", Event.delay 500] ++ evs' := by
        simpa [eq_comm] using heq
      refine ⟨hconn, ?_, by simp [hevs, delayTrace]⟩
      intro m hm
      match m with
      | 0 => exact Bool.eq_false_iff.mpr h0
      | m + 1 => exact hmin m (by omega)

/-- While every association check fails, the wait loop never exits,
whatever the fuel. -/
theorem wifiWait_stuck : ∀ (fuel : ℕ) (conn : ℕ → Bool), (∀ k, conn k = false) →
    wifiWait conn fuel = none := by
  intro fuel
  induction fuel with
  | zero => intro conn _; rfl
  | succ fuel ih =>
    intro conn h
    rw [wifiWait, if_neg (by simp [h 0]), ih (fun k => conn (k + 1)) (fun k => h (k + 1))]
    rfl

/-- As soon as the `n`-th check is the first to report connected, the wait
loop exits there with fuel `n + 1`, having delayed once per failure. -/
theorem wifiWait_first : ∀ (n : ℕ) (conn : ℕ → Bool), conn n = true →
    (∀ m < n, conn m = false) → wifiWait conn (n + 1) = some (n, delayTrace n) := by
  intro n
  induction n with
  | zero => intro conn h _; rw [wifiWait, if_pos h]; rfl
  | succ n ih =>
    intro conn h hmin
    rw [wifiWait, if_neg (by simp [hmin 0 (Nat.succ_pos n)]),
      ih (fun k => conn (k + 1)) h (fun m hm => hmin (m + 1) (by omega))]
    rfl

/-- C8: the startup phase's association wait blocks with a fixed 500 ms
delay per failed check, exits exactly at the first successful check, never
proceeds while the check keeps failing (for any amount of fuel), and does
proceed once a check succeeds. -/
theorem startup_waits_for_wifi :
    (∀ (conn : ℕ → Bool) (fuel n : ℕ) (evs : List Event),
      wifiWait conn fuel = some (n, evs) →
      conn n = true ∧ (∀ m < n, conn m = false) ∧ evs = delayTrace n) ∧
    (∀ (conn : ℕ → Bool), (∀ k, conn k = false) → ∀ fuel, wifiWait conn fuel = none) ∧
    (∀ (conn : ℕ → Bool) (n : ℕ), conn n = true → (∀ m < n, conn m = false) →
      wifiWait conn (n + 1) = some (n, delayTrace n)) :=
  ⟨fun conn fuel => wifiWait_exit fuel conn,
   fun conn h fuel => wifiWait_stuck fuel conn h,
   fun conn n => wifiWait_first n conn⟩

/-- C8 witness: instantiated at a check stream that first succeeds at
attempt 2 and at the always-failing stream. -/
theorem startup_waits_for_wifi_witness :
    (connW 2 = true ∧ (∀ m < 2, connW m = false) ∧ delayTrace 2 = delayTrace 2) ∧
    wifiWait (fun _ => false) 7 = none ∧
    wifiWait connW 3 = some (2, delayTrace 2) :=
  ⟨startup_waits_for_wifi.1 connW 5 2 (delayTrace 2) rfl,
   startup_waits_for_wifi.2.1 (fun _ => false) (fun _ => rfl) 7,
   startup_waits_for_wifi.2.2 connW 2 (by decide) (by decide)⟩

/-- The code's `gamma` is definitionally the spec's formula. -/
theorem gamma_eq_gammaSpec (t rh : ℝ) : gamma t rh = gammaSpec t rh := rfl

/-- The code's dew point is definitionally the spec's formula. -/
theorem dewpoint_eq_dewpointSpec (t rh : ℝ) :
    dewpoint t rh = dewpointSpec t rh := rfl

/-- Closed form of `gamma` at the spec's example `t = 20, rh = 50`. -/
theorem gamma_20_50_eq :
    gamma 20 50 = 8719982 / 6498933 - Real.log 2 := by
  unfold gamma bConst cConst dConst
  rw [show (50 : ℝ) / 100 = (2 : ℝ)⁻¹ by norm_num,
    Real.log_mul (by norm_num) (Real.exp_ne_zero _), Real.log_exp, Real.log_inv]
  norm_num
  ring

/-- Numeric bracket for `gamma 20 50` via the decimal bounds on `log 2`. -/
theorem gamma_20_50_bounds : 0.648 < gamma 20 50 ∧ gamma 20 50 < 0.649 := by
  rw [gamma_20_50_eq]
  constructor
  · linarith [Real.log_two_lt_d9]
  · linarith [Real.log_two_gt_d9]

/-- At the spec's example input, `gamma` stays clear of the divisor
constant `b`. -/
theorem b_ne_gamma_20_50 : bConst ≠ gamma 20 50 := by
  have h := gamma_20_50_bounds
  unfold bConst
  intro heq
  rw [← heq] at h
  norm_num at h

/-- The dew point at the spec's example input lies near 9.3 °C. -/
theorem dewpoint_20_50_bounds : 9.2 < dewpoint 20 50 ∧ dewpoint 20 50 < 9.4 := by
  obtain ⟨hl, hu⟩ := gamma_20_50_bounds
  have hpos : 0 < bConst - gamma 20 50 := by unfold bConst; linarith
  unfold dewpoint
  constructor
  · rw [lt_div_iff₀ hpos]
    unfold bConst cConst
    nlinarith
  · rw [div_lt_iff₀ hpos]
    unfold bConst cConst
    nlinarith

/-- C2: on the spec's stated domain, the value added as the `dewpoint`
field equals the spec's formula with b = 18.678, c = 257.14, d = 234.5,
and at the example `t = 20, rh = 50` it lies near 9.3 °C. -/
theorem dewpoint_matches_spec_formula (prev : Point) (sht : SensorIface)
    (h1 : 0 < sht.hum) (h2 : sht.hum ≤ 100) (h3 : cConst + sht.temp ≠ 0)
    (h4 : bConst ≠ gamma sht.temp sht.hum) :
    dewpoint sht.temp sht.hum = dewpointSpec sht.temp sht.hum ∧
    ("dewpoint", FieldValue.real (dewpointSpec sht.temp sht.hum))
      ∈ (loopPoint prev sht).fields ∧
    9.2 < dewpoint 20 50 ∧ dewpoint 20 50 < 9.4 := by
  refine ⟨rfl, ?_, dewpoint_20_50_bounds.1, dewpoint_20_50_bounds.2⟩
  rw [← dewpoint_eq_dewpointSpec]
  by_cases h : sht.err = 0 <;> simp [loopPoint_fields, h]

/-- C2 witness: instantiated at the example input `t = 20, rh = 50`. -/
theorem dewpoint_matches_spec_formula_witness :
    dewpoint sht2050.temp sht2050.hum = dewpointSpec sht2050.temp sht2050.hum ∧
    ("dewpoint", FieldValue.real (dewpointSpec sht2050.temp sht2050.hum))
      ∈ (loopPoint (setupPoint "i" "m") sht2050).fields ∧
    9.2 < dewpoint 20 50 ∧ dewpoint 20 50 < 9.4 :=
  dewpoint_matches_spec_formula (setupPoint "i" "m") sht2050
    (by norm_num [sht2050]) (by norm_num [sht2050])
    (by norm_num [sht2050, cConst]) (by simpa [sht2050] using b_ne_gamma_20_50)

/-- C10: the dew-point computation is unguarded: for nonpositive humidity
the argument of the logarithm is nonpositive, at t = −257.14 the divisor
c + t is zero, at a reachable sensor output `gamma` equals `b` making the
dew-point divisor zero, and in all cases the resulting value is still
added as the `dewpoint` field with no precondition checked. -/
theorem dewpoint_unguarded_degenerate (prev : Point) (sht : SensorIface) :
    (sht.hum ≤ 0 →
      sht.hum / 100
        * Real.exp ((bConst - sht.temp / dConst) * (sht.temp / (cConst + sht.temp)))
        ≤ 0) ∧
    (sht.temp = -257.14 → cConst + sht.temp = 0) ∧
    gamma 0 (100 * Real.exp bConst) = bConst ∧
    bConst - gamma 0 (100 * Real.exp bConst) = 0 ∧
    ("dewpoint", FieldValue.real (dewpoint sht.temp sht.hum))
      ∈ (loopPoint prev sht).fields := by
  have hgb : gamma 0 (100 * Real.exp bConst) = bConst := by
    unfold gamma
    rw [show (0 : ℝ) / (cConst + 0) = 0 by simp, mul_zero, Real.exp_zero, mul_one,
      show (100 * Real.exp bConst) / 100 = Real.exp bConst by ring]
    exact Real.log_exp bConst
  refine ⟨?_, ?_, hgb, by rw [hgb, sub_self], ?_⟩
  · intro h
    have hexp := Real.exp_pos ((bConst - sht.temp / dConst) * (sht.temp / (cConst + sht.temp)))
    nlinarith
  · intro h
    rw [h]
    unfold cConst
    norm_num
  · by_cases h : sht.err = 0 <;> simp [loopPoint_fields, h]

/-- C10 witness: instantiated at the degenerate sensor output with
`rh = 0` and `t = −257.14`. -/
theorem dewpoint_unguarded_degenerate_witness :
    (shtDeg.hum / 100
      * Real.exp ((bConst - shtDeg.temp / dConst) * (shtDeg.temp / (cConst + shtDeg.temp)))
      ≤ 0) ∧
    cConst + shtDeg.temp = 0 ∧
    gamma 0 (100 * Real.exp bConst) = bConst ∧
    ("dewpoint", FieldValue.real (dewpoint shtDeg.temp shtDeg.hum))
      ∈ (loopPoint (setupPoint "i" "m") shtDeg).fields :=
  have h := dewpoint_unguarded_degenerate (setupPoint "i" "m") shtDeg
  ⟨h.1 (by norm_num [shtDeg]), h.2.1 (by norm_num [shtDeg]), h.2.2.1, h.2.2.2.2⟩

end CoolingSetup
